import Mathlib

/-!
Shallow embedding of the karakeep MCP server's request-normalization,
pagination, deduplication and response-shaping layer
(apps/mcp/src/bookmarks.ts and apps/mcp/src/utils.ts), together with
theorems checking the natural-language specification against it.

Strings are modelled as Lean `String` (sequences of characters); the
JavaScript string operations used by the source (trim, trimEnd,
toLowerCase, slice, truthiness) are embedded below.  `null` and
`undefined` are both modelled as `Option.none` wherever the source
treats them interchangeably (it only ever distinguishes them through
nullish coalescing and truthiness, which coincide on the two).
-/

namespace Karakeep

/-- Whitespace as recognized by the JavaScript trim family of functions
(restricted to the ASCII whitespace characters, which are the only ones
relevant to the claims). -/
def isJsWhitespace (c : Char) : Bool :=
  c = ' ' || c = '\t' || c = '\n' || c = '\r' || c = '\x0b' || c = '\x0c'

/-- Embedding of JavaScript String.prototype.trim: drop whitespace from
both ends. -/
def jsTrim (s : String) : String :=
  ⟨((s.data.dropWhile isJsWhitespace).reverse.dropWhile isJsWhitespace).reverse⟩

/-- Embedding of JavaScript String.prototype.trimEnd: drop trailing
whitespace. -/
def jsTrimEnd (s : String) : String :=
  ⟨(s.data.reverse.dropWhile isJsWhitespace).reverse⟩

/-- Embedding of JavaScript String.prototype.toLowerCase, character by
character (ASCII case mapping, which covers the comparisons the source
performs). -/
def jsToLower (s : String) : String :=
  ⟨s.data.map Char.toLower⟩

/-- Embedding of JavaScript String.prototype.slice(0, n). -/
def jsSlice (s : String) (n : Nat) : String :=
  ⟨s.data.take n⟩

/-- JavaScript truthiness of a string: the empty string is falsy, every
other string is truthy. -/
def truthyStr (s : String) : Bool :=
  s ≠ ""

/-- JavaScript truthiness of a nullable/optional string: null and
undefined are falsy, a string is truthy iff nonempty. -/
def truthyOpt (s : Option String) : Bool :=
  match s with
  | none => false
  | some v => truthyStr v

/-- Embedding of the nullish-coalescing chain a ?? b over optional
strings: the empty string is NOT nullish, so it is kept. -/
def jsCoalesce (a b : Option String) : Option String :=
  match a with
  | some v => some v
  | none => b

/-- MARKDOWN_ESCAPE_CHARACTERS from utils.ts: the set of
markdown-significant characters that get backslash-escaped. -/
def markdownEscapeCharacters : List Char :=
  ['\\', '\x60', '*', '_', '\x7b', '\x7d', '[', ']', '(', ')',
   '#', '+', '.', '!', '|', '>', '~', '-']

/-- One step of escapeMarkdownText: a markdown-significant character is
replaced by a backslash followed by the character, every other
character passes through. -/
def escapeMarkdownChar (c : Char) : String :=
  if c ∈ markdownEscapeCharacters then ⟨['\\', c]⟩ else ⟨[c]⟩

/-- escapeMarkdownText from utils.ts: builds the escaped string by
appending the per-character escape of each character in order. -/
def escapeMarkdownText (value : String) : String :=
  value.data.foldl (fun acc c => acc ++ escapeMarkdownChar c) ""

/-- escapeOptionalMarkdownText from utils.ts: null/undefined pass
through, strings are escaped. -/
def escapeOptionalMarkdownText (value : Option String) : Option String :=
  match value with
  | none => none
  | some v => some (escapeMarkdownText v)

/-- Bookmark content type tag, including the degraded unknown case. -/
inductive BType where
  | link
  | text
  | asset
  | unknown
deriving DecidableEq, Repr

/-- Upstream bookmark content union, as consumed by toBookmarkSummary
(type-specific fields only; the unknown constructor models an upstream
content object whose type is absent or unrecognized). -/
inductive ApiBookmarkContent where
  | link (url : String) (title : Option String) (description : Option String)
      (author : Option String) (publisher : Option String)
  | text (sourceUrl : Option String)
  | asset (assetId : String) (assetType : String) (sourceUrl : Option String)
  | unknown
deriving DecidableEq, Repr

/-- Upstream tag record (only the name field is consumed). -/
structure ApiTag where
  name : String
deriving DecidableEq, Repr

/-- Upstream bookmark record, as consumed by toBookmarkSummary. -/
structure ApiBookmark where
  id : String
  createdAt : String
  modifiedAt : Option String
  title : Option String
  summary : Option String
  note : Option String
  archived : Bool
  favourited : Bool
  taggingStatus : Option String
  summarizationStatus : Option String
  content : ApiBookmarkContent
  tags : List ApiTag
deriving DecidableEq, Repr

/-- BookmarkSummary from utils.ts: the normalized caller-facing view of
one upstream bookmark record. -/
structure BookmarkSummary where
  id : String
  createdAt : String
  modifiedAt : Option String
  title : Option String
  summary : Option String
  note : Option String
  archived : Bool
  favourited : Bool
  taggingStatus : Option String
  summarizationStatus : Option String
  type : BType
  url : Option String := none
  description : Option String := none
  author : Option String := none
  publisher : Option String := none
  sourceUrl : Option String := none
  assetId : Option String := none
  assetType : Option String := none
  tags : List String
deriving DecidableEq, Repr

/-- toBookmarkSummary from utils.ts: shape one upstream record into a
BookmarkSummary, populating type-specific fields per content type. -/
def toBookmarkSummary (bookmark : ApiBookmark) : BookmarkSummary :=
  let base : BookmarkSummary :=
    { id := bookmark.id
      createdAt := bookmark.createdAt
      modifiedAt := bookmark.modifiedAt
      title :=
        match bookmark.title with
        | some t => some t
        | none =>
          match bookmark.content with
          | .link _ contentTitle _ _ _ => contentTitle
          | _ => none
      summary := bookmark.summary
      note := bookmark.note
      archived := bookmark.archived
      favourited := bookmark.favourited
      taggingStatus := bookmark.taggingStatus
      summarizationStatus := bookmark.summarizationStatus
      type :=
        match bookmark.content with
        | .link _ _ _ _ _ => .link
        | .text _ => .text
        | .asset _ _ _ => .asset
        | .unknown => .unknown
      tags := bookmark.tags.map ApiTag.name }
  match bookmark.content with
  | .link url _ description author publisher =>
    { base with
      url := some url
      description := description
      author := author
      publisher := publisher }
  | .text sourceUrl =>
    { base with sourceUrl := sourceUrl }
  | .asset assetId assetType sourceUrl =>
    { base with
      assetId := some assetId
      assetType := some assetType
      sourceUrl := sourceUrl }
  | .unknown => base

/-- escapeBookmarkSummaryMarkdown from utils.ts: escape every free-text
field of a BookmarkSummary, leaving id, timestamps, booleans and type
untouched. -/
def escapeBookmarkSummaryMarkdown (summary : BookmarkSummary) : BookmarkSummary :=
  { summary with
    title := escapeOptionalMarkdownText summary.title
    summary := escapeOptionalMarkdownText summary.summary
    note := escapeOptionalMarkdownText summary.note
    taggingStatus := escapeOptionalMarkdownText summary.taggingStatus
    summarizationStatus := escapeOptionalMarkdownText summary.summarizationStatus
    url := escapeOptionalMarkdownText summary.url
    description := escapeOptionalMarkdownText summary.description
    author := escapeOptionalMarkdownText summary.author
    publisher := escapeOptionalMarkdownText summary.publisher
    sourceUrl := escapeOptionalMarkdownText summary.sourceUrl
    assetId := escapeOptionalMarkdownText summary.assetId
    assetType := escapeOptionalMarkdownText summary.assetType
    tags := summary.tags.map escapeMarkdownText }

/-- Deduplication loop of searchBookmarks: scan the shaped page in
order keeping a running list of seen ids; a bookmark whose id was
already seen is skipped, otherwise it is kept and its id recorded.
(The duplicate-id set of the source is used only for diagnostic
logging, which is out of scope.) -/
def dedupeSummaries : List BookmarkSummary → List String → List BookmarkSummary
  | [], _ => []
  | b :: rest, seen =>
    if b.id ∈ seen then dedupeSummaries rest seen
    else b :: dedupeSummaries rest (b.id :: seen)

/-- Modelled from the JavaScript Date builtin (an external platform
collaborator, not repository code) as used by formatBookmarkLine:
new Date(createdAt) followed by toISOString().split("T")[0].  For the
ISO-8601 UTC timestamps the upstream API supplies (YYYY-MM-DD followed
by nothing or a T time part) this yields the leading date segment; any
other shape is treated as an invalid date (null). -/
def jsDateIsoDay (createdAt : String) : Option String :=
  let cs := createdAt.data
  let day := cs.take 10
  let shapeOk :=
    day.length = 10 &&
    (List.range 10).all (fun i =>
      match day.get? i with
      | some c => if i = 4 || i = 7 then c = '-' else c.isDigit
      | none => false) &&
    (cs.length = 10 || cs.get? 10 = some 'T')
  if shapeOk then some ⟨day⟩ else none

/-- truncateText from utils.ts: a value within the cap is returned
unchanged; a longer value is sliced to cap-1 characters, stripped of
trailing whitespace, and suffixed with an ellipsis. -/
def truncateText (value : String) (maxLength : Nat) : String :=
  if value.length ≤ maxLength then value
  else jsTrimEnd (jsSlice value (maxLength - 1)) ++ "…"

/-- Line parts built by formatBookmarkLine from utils.ts: header with
1-based index, title (placeholder when empty/whitespace-only) and
creation date when parseable; then optional summary (cap 400), note
(cap 200), link (url falling back to sourceUrl) and tag lines, each
omitted when its source field is absent or empty. -/
def formatBookmarkLineParts (bookmark : BookmarkSummary) (index : Nat) : List String :=
  let createdAt := jsDateIsoDay bookmark.createdAt
  let title :=
    match bookmark.title.map jsTrim with
    | some t => if truthyStr t then t else "Untitled bookmark"
    | none => "Untitled bookmark"
  let headerLine :=
    s!"{index + 1}. {title}" ++
      (match createdAt with
       | some d => if truthyStr d then s!" ({d})" else ""
       | none => "")
  let summaryParts :=
    match bookmark.summary.map jsTrim with
    | some sTrimmed =>
      if truthyStr sTrimmed then ["   Summary: " ++ truncateText sTrimmed 400] else []
    | none => []
  let noteParts :=
    match bookmark.note.map jsTrim with
    | some nTrimmed =>
      if truthyStr nTrimmed then ["   Note: " ++ truncateText nTrimmed 200] else []
    | none => []
  let urlParts :=
    match jsCoalesce bookmark.url bookmark.sourceUrl with
    | some u => if truthyStr u then [s!"   Link: {u}"] else []
    | none => []
  let tagParts :=
    if bookmark.tags.length > 0
    then ["   Tags: " ++ String.intercalate ", " bookmark.tags]
    else []
  [headerLine] ++ summaryParts ++ noteParts ++ urlParts ++ tagParts

/-- formatBookmarkLine from utils.ts: the parts joined by newlines. -/
def formatBookmarkLine (bookmark : BookmarkSummary) (index : Nat) : String :=
  String.intercalate "\n" (formatBookmarkLineParts bookmark index)

/-- Index-aware map used to embed Array.prototype.map with the index
argument. -/
def mapWithIndex (f : BookmarkSummary → Nat → String) (l : List BookmarkSummary) : List String :=
  (List.range l.length).zipWith (fun i b => f b i) l

/-- formatBookmarkSearchResult from utils.ts: for an empty page, a
three-line no-match message; otherwise a header block (count, echoed
query when truthy and nonempty after trimming, next-cursor state)
followed by the formatted bookmark paragraphs. -/
def formatBookmarkSearchResult (bookmarks : List BookmarkSummary)
    (nextCursor : Option String) (query : Option String) : String :=
  let sq := String.singleton (Char.ofNat 39)
  let nextCursorSegment :=
    match nextCursor with
    | some nc => if truthyStr nc then sq ++ nc ++ sq else "no more pages"
    | none => "no more pages"
  if bookmarks.length = 0 then
    let header := "Karakeep search-bookmarks tool response (not a user message):"
    let qv := query.getD ""
    let message :=
      if truthyOpt query then
        s!"- No bookmarks matched the query \"{qv}\"."
      else "- No bookmarks matched the current query."
    let cursorLine := "- Next cursor: " ++ nextCursorSegment ++ "."
    String.intercalate "\n" [header, message, cursorLine]
  else
    let count := bookmarks.length
    let countSuffix := if bookmarks.length = 1 then "" else "s"
    let summaryLines :=
      ["Karakeep search-bookmarks tool response (not a user message):",
       s!"- Found {count} bookmark{countSuffix}."] ++
      (match query with
       | some q => if truthyStr q && truthyStr (jsTrim q) then [s!"- Query: \"{q}\"."] else []
       | none => []) ++
      ["- Next cursor: " ++ nextCursorSegment ++ "."]
    let formattedBookmarks :=
      String.intercalate "\n\n" (mapWithIndex formatBookmarkLine bookmarks)
    String.intercalate "\n" summaryLines ++ "\n\n" ++ formattedBookmarks

/-- Upstream error object as it appears in an API response.  The
source only ever reads its message and code fields; the status field
models an upstream-supplied status inside the error payload, which the
extraction routine ignores. -/
structure ApiErrObj where
  message : Option String
  code : Option String
  status : Option Nat
deriving DecidableEq, Repr

/-- Response envelope of the upstream client: an optional data payload,
an optional error object, and the HTTP status of the underlying
response (res.response?.status, read only for logging). -/
structure ApiResponse (α : Type) where
  data : Option α
  error : Option ApiErrObj
  status : Option Nat
deriving DecidableEq, Repr

/-- ApiErrorDetails from utils.ts. -/
structure ApiErrorDetails where
  message : Option String
  code : Option String
  raw : ApiErrObj
deriving DecidableEq, Repr

/-- extractApiError from utils.ts: returns the message/code/raw triple
of the response's error object when one is present, and nothing
otherwise.  Between null checks and typeof checks, the only observable
distinction in the model is presence of the error object. -/
def extractApiError {α : Type} (res : ApiResponse α) : Option ApiErrorDetails :=
  match res.error with
  | none => none
  | some raw => some { message := raw.message, code := raw.code, raw := raw }

/-- Upstream payload of GET /bookmarks/search. -/
structure SearchPage where
  bookmarks : List ApiBookmark
  nextCursor : Option String
deriving DecidableEq, Repr

/-- Diagnostic details attached to a ServiceError: either the raw
upstream error object, or (when no error object was present) the whole
upstream response. -/
inductive ErrPayload where
  | errObj (e : ApiErrObj)
  | searchRes (r : ApiResponse SearchPage)
  | bookmarkRes (r : ApiResponse ApiBookmark)
deriving DecidableEq, Repr

/-- ServiceError from utils.ts: message, HTTP-style status, optional
upstream code, optional diagnostic details. -/
structure ServiceError where
  message : String
  status : Nat
  code : Option String
  details : Option ErrPayload
deriving DecidableEq, Repr

/-- Constructor of ServiceError: the status option defaults to 500 when
unspecified (this.status = options?.status ?? 500). -/
def ServiceError.make (message : String) (status : Option Nat)
    (code : Option String) (details : Option ErrPayload) : ServiceError :=
  { message := message, status := status.getD 500, code := code, details := details }

/-- Parsed search-bookmarks input after schema defaults: query, limit,
and the two optional cursor aliases. -/
structure SearchBookmarksInput where
  query : String
  limit : Nat
  nextCursor : Option String
  cursor : Option String
deriving DecidableEq, Repr

/-- Refinement check of SearchBookmarksInputSchema: the input passes
iff NOT (nextCursor truthy AND cursor truthy). -/
def searchInputRefine (input : SearchBookmarksInput) : Bool :=
  !(truthyOpt input.nextCursor && truthyOpt input.cursor)

/-- Query parameters of the upstream GET /bookmarks/search call. -/
structure UpstreamSearchQuery where
  q : String
  limit : Nat
  includeContent : Bool
  cursor : Option String
deriving DecidableEq, Repr

/-- Effective cursor of searchBookmarks:
input.nextCursor ?? input.cursor ?? null. -/
def effectiveCursorOf (input : SearchBookmarksInput) : Option String :=
  jsCoalesce input.nextCursor input.cursor

/-- Trimmed query of searchBookmarks: input.query.trim(). -/
def trimmedQueryOf (input : SearchBookmarksInput) : String :=
  jsTrim input.query

/-- Normalized query of searchBookmarks: the trimmed query lowercased. -/
def normalizedQueryOf (input : SearchBookmarksInput) : String :=
  jsToLower (trimmedQueryOf input)

/-- Effective query of searchBookmarks: the wildcard when the
normalized query is the literal word bookmarks, the trimmed query
otherwise. -/
def effectiveQueryOf (input : SearchBookmarksInput) : String :=
  if normalizedQueryOf input = "bookmarks" then "*" else trimmedQueryOf input

/-- Upstream call parameters built by searchBookmarks
(q, limit, includeContent false, cursor ?? undefined). -/
def upstreamQueryOf (input : SearchBookmarksInput) : UpstreamSearchQuery :=
  { q := effectiveQueryOf input
    limit := input.limit
    includeContent := false
    cursor := effectiveCursorOf input }

/-- Paginated data block of a search result. -/
structure PaginatedData where
  items : List BookmarkSummary
  nextCursor : Option String
  cursor : Option String
  hasMore : Bool
deriving DecidableEq, Repr

/-- Raw (unescaped) mirror block of a search result. -/
structure RawMirror where
  bookmarks : List BookmarkSummary
  items : List BookmarkSummary
  results : List BookmarkSummary
  data : PaginatedData
deriving DecidableEq, Repr

/-- SearchBookmarksResult from bookmarks.ts: escaped alias lists,
pagination fields, query echoes, the raw mirror, and the
human-readable text. -/
structure SearchBookmarksResult where
  bookmarks : List BookmarkSummary
  items : List BookmarkSummary
  results : List BookmarkSummary
  nextCursor : Option String
  cursor : Option String
  hasMore : Bool
  submittedQuery : String
  normalizedQuery : String
  effectiveQuery : String
  data : PaginatedData
  raw : RawMirror
  text : String
deriving DecidableEq, Repr

/-- Success branch of searchBookmarks: deduplicate the shaped page,
escape the kept summaries, and assemble the result with its aliases,
raw mirror and rendered text (the text is rendered from the raw,
unescaped summaries). -/
def shapeSearchPage (input : SearchBookmarksInput) (page : SearchPage) :
    SearchBookmarksResult :=
  let cursor := effectiveCursorOf input
  let rawBookmarks := dedupeSummaries (page.bookmarks.map toBookmarkSummary) []
  let bookmarks := rawBookmarks.map escapeBookmarkSummaryMarkdown
  let nextCursor := page.nextCursor
  let hasMore := nextCursor.isSome
  let paginatedData : PaginatedData :=
    { items := bookmarks, nextCursor := nextCursor, cursor := cursor, hasMore := hasMore }
  let rawPaginatedData : PaginatedData :=
    { items := rawBookmarks, nextCursor := nextCursor, cursor := cursor, hasMore := hasMore }
  { bookmarks := bookmarks
    items := bookmarks
    results := bookmarks
    nextCursor := nextCursor
    cursor := cursor
    hasMore := hasMore
    submittedQuery := input.query
    normalizedQuery := normalizedQueryOf input
    effectiveQuery := effectiveQueryOf input
    data := paginatedData
    raw := { bookmarks := rawBookmarks, items := rawBookmarks,
             results := rawBookmarks, data := rawPaginatedData }
    text := formatBookmarkSearchResult rawBookmarks nextCursor (some (effectiveQueryOf input)) }

/-- Body of searchBookmarks applied to the already-received upstream
response: a falsy payload becomes a ServiceError (status 400, message
and code from the extracted upstream error, details the raw error
object or the whole response); otherwise the page is shaped. -/
def searchBookmarksRes (input : SearchBookmarksInput) (res : ApiResponse SearchPage) :
    Except ServiceError SearchBookmarksResult :=
  match res.data with
  | none =>
    let apiError := extractApiError res
    .error (ServiceError.make
      ((apiError.bind ApiErrorDetails.message).getD "Failed to search bookmarks")
      (some 400)
      (apiError.bind ApiErrorDetails.code)
      (some (match apiError with
             | some d => .errObj d.raw
             | none => .searchRes res)))
  | some page => .ok (shapeSearchPage input page)

/-- searchBookmarks from bookmarks.ts, with the upstream client passed
as a function from the upstream call parameters to the response.
Throwing is modelled as Except.error. -/
def searchBookmarks (input : SearchBookmarksInput)
    (fetch : UpstreamSearchQuery → ApiResponse SearchPage) :
    Except ServiceError SearchBookmarksResult :=
  searchBookmarksRes input (fetch (upstreamQueryOf input))

/-- Body of getBookmark applied to the already-received upstream
response: a falsy payload becomes a ServiceError with status 404,
otherwise the record is shaped. -/
def getBookmarkRes (res : ApiResponse ApiBookmark) :
    Except ServiceError BookmarkSummary :=
  match res.data with
  | none =>
    let apiError := extractApiError res
    .error (ServiceError.make
      ((apiError.bind ApiErrorDetails.message).getD "Failed to load bookmark")
      (some 404)
      (apiError.bind ApiErrorDetails.code)
      (some (match apiError with
             | some d => .errObj d.raw
             | none => .bookmarkRes res)))
  | some record => .ok (toBookmarkSummary record)

/-- getBookmark from bookmarks.ts: fetch one record (without content);
a falsy payload becomes a ServiceError with status 404. -/
def getBookmark (bookmarkId : String)
    (fetch : String → ApiResponse ApiBookmark) :
    Except ServiceError BookmarkSummary :=
  getBookmarkRes (fetch bookmarkId)

/-- Field of a duck-typed plain object as probed by normalizeError:
absent, present with a string value, or present with a non-string
value. -/
inductive ObjField where
  | absent
  | strVal (s : String)
  | otherVal
deriving DecidableEq, Repr

/-- Plain object input of normalizeError (only its message and code
fields are probed; the object itself is carried as details). -/
structure JsObj where
  message : ObjField
  code : ObjField
deriving DecidableEq, Repr

/-- Universe of values normalizeError can receive: null/undefined, the
primitive types, a ServiceError, another native Error, or a plain
object. -/
inductive JsErrorValue where
  | nullish
  | str (s : String)
  | num (n : Int)
  | boolean (b : Bool)
  | serviceErr (e : ServiceError)
  | nativeErr (message : String)
  | obj (o : JsObj)
deriving DecidableEq, Repr

/-- JavaScript falsiness over the modelled error values: null,
undefined, the empty string, zero and false are falsy; every object
(including every Error) is truthy. -/
def jsFalsy (v : JsErrorValue) : Bool :=
  match v with
  | .nullish => true
  | .str s => s = ""
  | .num n => n = 0
  | .boolean b => !b
  | _ => false

/-- String(error) over the primitive error values reaching the final
branch of normalizeError. -/
def jsStringOf (v : JsErrorValue) : String :=
  match v with
  | .str s => s
  | .num n => toString n
  | .boolean b => if b then "true" else "false"
  | _ => ""

/-- Details slot of a normalized error: copied from a ServiceError, or
the plain object itself. -/
inductive NormDetails where
  | fromService (d : ErrPayload)
  | fromObject (o : JsObj)
deriving DecidableEq, Repr

/-- NormalizedError from utils.ts: a string message plus optional code,
status, details. -/
structure NormalizedError where
  message : String
  code : Option String
  status : Option Nat
  details : Option NormDetails
deriving DecidableEq, Repr

/-- normalizeError from utils.ts: falsy inputs get a generic message; a
ServiceError keeps its fields; another Error keeps its message; a plain
object is probed for string message/code fields and carried as
details; any remaining primitive is stringified. -/
def normalizeError (error : JsErrorValue) : NormalizedError :=
  if jsFalsy error then
    { message := "Something went wrong", code := none, status := none, details := none }
  else
    match error with
    | .serviceErr e =>
      { message := e.message, code := e.code, status := some e.status,
        details := e.details.map NormDetails.fromService }
    | .nativeErr m =>
      { message := m, code := none, status := none, details := none }
    | .obj o =>
      { message := match o.message with | .strVal s => s | _ => "Something went wrong"
        code := match o.code with | .strVal s => some s | _ => none
        status := none
        details := some (.fromObject o) }
    | v =>
      { message := jsStringOf v, code := none, status := none, details := none }

/-- Concrete sample page and inputs used by witnesses and concrete
conjuncts: a text bookmark with a given id, note, and title. -/
def sampleBookmark (id : String) (title : Option String) (note : Option String) : ApiBookmark :=
  { id := id
    createdAt := "2024-01-02T03:04:05.000Z"
    modifiedAt := none
    title := title
    summary := none
    note := note
    archived := false
    favourited := false
    taggingStatus := none
    summarizationStatus := none
    content := ApiBookmarkContent.text none
    tags := [] }

/-- Character-by-character form of the escaping loop: the escaped
string is the concatenation of the per-character escapes in order. -/
def escapeMarkdownChars : List Char → String
  | [] => ""
  | c :: rest => escapeMarkdownChar c ++ escapeMarkdownChars rest

/-- Concrete input used by several witnesses: a plain query with no
cursor fields. -/
def inputX : SearchBookmarksInput :=
  { query := "x", limit := 100, nextCursor := none, cursor := none }

/-- Concrete upstream page whose records are, by id, A B A C B (the
duplicated records differ in title so that first-occurrence keeping is
observable). -/
def pageDup : SearchPage :=
  { bookmarks :=
      [sampleBookmark "A" (some "first A") none,
       sampleBookmark "B" (some "first B") none,
       sampleBookmark "A" (some "second A") none,
       sampleBookmark "C" (some "only C") none,
       sampleBookmark "B" (some "second B") none]
    nextCursor := none }

/-- Upstream client stub returning the duplicated page. -/
def fetchDup : UpstreamSearchQuery → ApiResponse SearchPage :=
  fun _ => { data := some pageDup, error := none, status := some 200 }

/-- Shaped result of the duplicated page. -/
def resultDup : SearchBookmarksResult := shapeSearchPage inputX pageDup

/-- Concrete page with a markdown-significant title. -/
def pageBold : SearchPage :=
  { bookmarks := [sampleBookmark "b1" (some "*bold*") none], nextCursor := none }

/-- Upstream client stub returning the markdown-title page. -/
def fetchBold : UpstreamSearchQuery → ApiResponse SearchPage :=
  fun _ => { data := some pageBold, error := none, status := some 200 }

/-- Shaped result of the markdown-title page. -/
def resultBold : SearchBookmarksResult := shapeSearchPage inputX pageBold

/-- Upstream error object that carries an explicit upstream status 503
in its payload. -/
def svcErrObj : ApiErrObj :=
  { message := some "Service Unavailable", code := some "UPSTREAM_UNAVAILABLE",
    status := some 503 }

/-- Failed upstream search response: no data, an error object, HTTP
status 503. -/
def svcBadResponse : ApiResponse SearchPage :=
  { data := none, error := some svcErrObj, status := some 503 }

/-- Concrete padded mixed-case bookmarks query. -/
def inputPadBookmarks : SearchBookmarksInput :=
  { query := " BookMarks ", limit := 100, nextCursor := none, cursor := none }

/-- Concrete padded non-bookmarks query. -/
def inputPadPlease : SearchBookmarksInput :=
  { query := "  my bookmarks please ", limit := 100, nextCursor := none, cursor := none }

/-- Concrete input with a nonempty nextCursor and an empty cursor. -/
def inputNextFullCursorEmpty : SearchBookmarksInput :=
  { query := "x", limit := 10, nextCursor := some "abc", cursor := some "" }

/-- Concrete input with an empty nextCursor and a nonempty cursor. -/
def inputNextEmptyCursorFull : SearchBookmarksInput :=
  { query := "x", limit := 10, nextCursor := some "", cursor := some "c2" }

/-- Concrete input with two nonempty cursor tokens. -/
def inputBothCursors : SearchBookmarksInput :=
  { query := "x", limit := 10, nextCursor := some "c1", cursor := some "c2" }

/-- Concrete input with an empty-string cursor and no nextCursor. -/
def inputEmptyCursorOnly : SearchBookmarksInput :=
  { query := "x", limit := 10, nextCursor := none, cursor := some "" }

/-- Concrete 500-character summary used by the truncation witness. -/
def longSummary : String := ⟨List.replicate 500 'a'⟩

theorem dedupeSummaries_sublist (l : List BookmarkSummary) (seen : List String) :
    List.Sublist (dedupeSummaries l seen) l := by
  induction l generalizing seen with
  | nil => simp [dedupeSummaries]
  | cons b rest ih =>
    by_cases h : b.id ∈ seen
    · simp only [dedupeSummaries, if_pos h]
      exact List.Sublist.cons b (ih seen)
    · simp only [dedupeSummaries, if_neg h]
      exact List.Sublist.cons₂ b (ih (b.id :: seen))

theorem dedupeSummaries_id_not_seen :
    ∀ (l : List BookmarkSummary) (seen : List String) (b : BookmarkSummary),
      b ∈ dedupeSummaries l seen → b.id ∉ seen := by
  intro l
  induction l with
  | nil => intro seen b hb; simp [dedupeSummaries] at hb
  | cons a rest ih =>
    intro seen b hb
    by_cases h : a.id ∈ seen
    · simp only [dedupeSummaries, if_pos h] at hb
      exact ih seen b hb
    · simp only [dedupeSummaries, if_neg h] at hb
      rcases List.mem_cons.mp hb with rfl | hb1
      · exact h
      · have hnot := ih (a.id :: seen) b hb1
        intro hc
        exact hnot (List.mem_cons_of_mem _ hc)

theorem dedupeSummaries_ids_nodup (l : List BookmarkSummary) (seen : List String) :
    ((dedupeSummaries l seen).map BookmarkSummary.id).Nodup := by
  induction l generalizing seen with
  | nil => simp [dedupeSummaries]
  | cons a rest ih =>
    by_cases h : a.id ∈ seen
    · simp only [dedupeSummaries, if_pos h]
      exact ih seen
    · simp only [dedupeSummaries, if_neg h, List.map_cons, List.nodup_cons]
      refine ⟨?_, ih (a.id :: seen)⟩
      intro hmem
      rcases List.mem_map.mp hmem with ⟨b, hb, hid⟩
      have hnot := dedupeSummaries_id_not_seen rest (a.id :: seen) b hb
      exact hnot (hid ▸ List.mem_cons_self a.id seen)

theorem dedupeSummaries_covers :
    ∀ (l : List BookmarkSummary) (seen : List String) (b : BookmarkSummary),
      b ∈ l → b.id ∉ seen →
      ∃ b1, b1 ∈ dedupeSummaries l seen ∧ b1.id = b.id := by
  intro l
  induction l with
  | nil => intro seen b hb; simp at hb
  | cons a rest ih =>
    intro seen b hb hns
    by_cases h : a.id ∈ seen
    · simp only [dedupeSummaries, if_pos h]
      rcases List.mem_cons.mp hb with rfl | hb1
      · exact absurd h hns
      · exact ih seen b hb1 hns
    · simp only [dedupeSummaries, if_neg h]
      rcases List.mem_cons.mp hb with rfl | hb1
      · exact ⟨b, List.mem_cons_self _ _, rfl⟩
      · by_cases hid : b.id = a.id
        · exact ⟨a, List.mem_cons_self _ _, hid.symm⟩
        · have hns2 : b.id ∉ a.id :: seen := by
            intro hc
            rcases List.mem_cons.mp hc with h1 | h2
            · exact hid h1
            · exact hns h2
          rcases ih (a.id :: seen) b hb1 hns2 with ⟨b1, hb1m, hb1id⟩
          exact ⟨b1, List.mem_cons_of_mem _ hb1m, hb1id⟩

theorem dedupeSummaries_find_first :
    ∀ (l : List BookmarkSummary) (seen : List String) (b1 : BookmarkSummary),
      b1 ∈ dedupeSummaries l seen →
      l.find? (fun b => b.id == b1.id) = some b1 := by
  intro l
  induction l with
  | nil => intro seen b1 hb; simp [dedupeSummaries] at hb
  | cons a rest ih =>
    intro seen b1 hb
    by_cases h : a.id ∈ seen
    · simp only [dedupeSummaries, if_pos h] at hb
      have hnotin := dedupeSummaries_id_not_seen rest seen b1 hb
      have hne : (a.id == b1.id) = false := by
        simp only [beq_eq_false_iff_ne, ne_eq]
        intro he
        exact hnotin (he ▸ h)
      simp only [List.find?, hne]
      exact ih seen b1 hb
    · simp only [dedupeSummaries, if_neg h] at hb
      rcases List.mem_cons.mp hb with rfl | hb1
      · simp [List.find?]
      · have hnotin := dedupeSummaries_id_not_seen rest (a.id :: seen) b1 hb1
        have hne : (a.id == b1.id) = false := by
          simp only [beq_eq_false_iff_ne, ne_eq]
          intro he
          exact hnotin (he ▸ List.mem_cons_self _ _)
        simp only [List.find?, hne]
        exact ih (a.id :: seen) b1 hb1

theorem searchBookmarks_ok_of_data (input : SearchBookmarksInput)
    (fetch : UpstreamSearchQuery → ApiResponse SearchPage) (page : SearchPage)
    (hdata : (fetch (upstreamQueryOf input)).data = some page) :
    searchBookmarks input fetch = .ok (shapeSearchPage input page) := by
  unfold searchBookmarks searchBookmarksRes
  rw [hdata]

theorem searchBookmarks_ok_inv (input : SearchBookmarksInput)
    (fetch : UpstreamSearchQuery → ApiResponse SearchPage) (r : SearchBookmarksResult)
    (hok : searchBookmarks input fetch = .ok r) :
    ∃ page, (fetch (upstreamQueryOf input)).data = some page ∧
      r = shapeSearchPage input page := by
  unfold searchBookmarks searchBookmarksRes at hok
  cases hd : (fetch (upstreamQueryOf input)).data with
  | none => rw [hd] at hok; simp at hok
  | some page =>
    rw [hd] at hok
    injection hok with h
    exact ⟨page, rfl, h.symm⟩

theorem head?_dropWhile_not (p : Char → Bool) :
    ∀ (l : List Char) (c : Char), (l.dropWhile p).head? = some c → p c = false := by
  intro l
  induction l with
  | nil => intro c hc; simp [List.dropWhile] at hc
  | cons a t ih =>
    intro c hc
    cases hp : p a with
    | true => rw [List.dropWhile_cons_of_pos hp] at hc; exact ih c hc
    | false =>
      rw [List.dropWhile_cons_of_neg (by simp [hp])] at hc
      simp only [List.head?_cons, Option.some.injEq] at hc
      exact hc ▸ hp

theorem length_dropWhile_le (p : Char → Bool) :
    ∀ l : List Char, (l.dropWhile p).length ≤ l.length := by
  intro l
  induction l with
  | nil => simp [List.dropWhile]
  | cons a t ih =>
    cases hp : p a with
    | true =>
      rw [List.dropWhile_cons_of_pos hp]
      exact Nat.le_trans ih (Nat.le_succ _)
    | false => rw [List.dropWhile_cons_of_neg (by simp [hp])]

theorem escapeMarkdownText_foldl_general :
    ∀ (l : List Char) (acc : String),
      l.foldl (fun a c => a ++ escapeMarkdownChar c) acc = acc ++ escapeMarkdownChars l := by
  intro l
  induction l with
  | nil =>
    intro acc
    simp [escapeMarkdownChars]
  | cons c rest ih =>
    intro acc
    simp only [List.foldl_cons, escapeMarkdownChars]
    rw [ih, String.append_assoc]

theorem escapeMarkdownText_charwise (s : String) :
    escapeMarkdownText s = escapeMarkdownChars s.data := by
  unfold escapeMarkdownText
  rw [escapeMarkdownText_foldl_general]
  simp

/-- C1: for every searchBookmarks call whose upstream page arrives,
the call succeeds (the pass raises no error) and the raw items are the
first-occurrence deduplication of the shaped page: a sublist of the
page (original relative order preserved), with pairwise-distinct ids,
covering every id of the page, each kept record being the first record
of the page with its id; concretely, a page with records A B A C B by
id yields items A B C in that order, keeping the first A and first B. -/
theorem searchBookmarks_dedupes_first_occurrence
    (input : SearchBookmarksInput) (fetch : UpstreamSearchQuery → ApiResponse SearchPage)
    (page : SearchPage)
    (hdata : (fetch (upstreamQueryOf input)).data = some page) :
    (∃ r, searchBookmarks input fetch = .ok r ∧
      r.raw.items = dedupeSummaries (page.bookmarks.map toBookmarkSummary) [] ∧
      List.Sublist r.raw.items (page.bookmarks.map toBookmarkSummary) ∧
      (r.raw.items.map BookmarkSummary.id).Nodup ∧
      (∀ b ∈ page.bookmarks.map toBookmarkSummary, ∃ b1 ∈ r.raw.items, b1.id = b.id) ∧
      (∀ b1 ∈ r.raw.items,
        (page.bookmarks.map toBookmarkSummary).find? (fun b => b.id == b1.id) = some b1)) ∧
    searchBookmarks inputX fetchDup = .ok resultDup ∧
    resultDup.items.map BookmarkSummary.id = ["A", "B", "C"] ∧
    resultDup.raw.items =
      [toBookmarkSummary (sampleBookmark "A" (some "first A") none),
       toBookmarkSummary (sampleBookmark "B" (some "first B") none),
       toBookmarkSummary (sampleBookmark "C" (some "only C") none)] := by
  refine ⟨⟨shapeSearchPage input page,
    searchBookmarks_ok_of_data input fetch page hdata, rfl, ?_, ?_, ?_, ?_⟩, rfl, rfl, rfl⟩
  · exact dedupeSummaries_sublist _ _
  · exact dedupeSummaries_ids_nodup _ _
  · intro b hb
    rcases dedupeSummaries_covers (page.bookmarks.map toBookmarkSummary) [] b hb
      (List.not_mem_nil _) with ⟨b1, hb1, hid⟩
    exact ⟨b1, hb1, hid⟩
  · intro b1 hb1
    exact dedupeSummaries_find_first _ [] b1 hb1

/-- Witness for C1 at the concrete duplicated page. -/
theorem searchBookmarks_dedupes_first_occurrence_witness :
    ∃ r, searchBookmarks inputX fetchDup = .ok r ∧
      r.raw.items = dedupeSummaries (pageDup.bookmarks.map toBookmarkSummary) [] ∧
      List.Sublist r.raw.items (pageDup.bookmarks.map toBookmarkSummary) ∧
      (r.raw.items.map BookmarkSummary.id).Nodup ∧
      (∀ b ∈ pageDup.bookmarks.map toBookmarkSummary, ∃ b1 ∈ r.raw.items, b1.id = b.id) ∧
      (∀ b1 ∈ r.raw.items,
        (pageDup.bookmarks.map toBookmarkSummary).find? (fun b => b.id == b1.id) = some b1) :=
  (searchBookmarks_dedupes_first_occurrence inputX fetchDup pageDup rfl).1

/-- C2: the escaping pass works character by character, prefixing each
markdown-significant character with a backslash and leaving every
other character unchanged; escapeBookmarkSummaryMarkdown applies it to
every free-text field (title, summary, note, the status fields, the
url-family fields, and each tag name) while keeping the id; a title
*bold* escapes to backslash-star bold backslash-star, and the
searchBookmarks raw mirror keeps the same fields unescaped while the
items carry the escaped form. -/
theorem escapeBookmarkSummaryMarkdown_spec :
    (∀ s : String, escapeMarkdownText s = escapeMarkdownChars s.data) ∧
    (∀ c ∈ markdownEscapeCharacters, escapeMarkdownChar c = ⟨['\\', c]⟩) ∧
    (∀ c, c ∉ markdownEscapeCharacters → escapeMarkdownChar c = ⟨[c]⟩) ∧
    (∀ b : BookmarkSummary,
      (escapeBookmarkSummaryMarkdown b).title = escapeOptionalMarkdownText b.title ∧
      (escapeBookmarkSummaryMarkdown b).summary = escapeOptionalMarkdownText b.summary ∧
      (escapeBookmarkSummaryMarkdown b).note = escapeOptionalMarkdownText b.note ∧
      (escapeBookmarkSummaryMarkdown b).taggingStatus =
        escapeOptionalMarkdownText b.taggingStatus ∧
      (escapeBookmarkSummaryMarkdown b).summarizationStatus =
        escapeOptionalMarkdownText b.summarizationStatus ∧
      (escapeBookmarkSummaryMarkdown b).url = escapeOptionalMarkdownText b.url ∧
      (escapeBookmarkSummaryMarkdown b).description = escapeOptionalMarkdownText b.description ∧
      (escapeBookmarkSummaryMarkdown b).author = escapeOptionalMarkdownText b.author ∧
      (escapeBookmarkSummaryMarkdown b).publisher = escapeOptionalMarkdownText b.publisher ∧
      (escapeBookmarkSummaryMarkdown b).sourceUrl = escapeOptionalMarkdownText b.sourceUrl ∧
      (escapeBookmarkSummaryMarkdown b).assetId = escapeOptionalMarkdownText b.assetId ∧
      (escapeBookmarkSummaryMarkdown b).assetType = escapeOptionalMarkdownText b.assetType ∧
      (escapeBookmarkSummaryMarkdown b).tags = b.tags.map escapeMarkdownText ∧
      (escapeBookmarkSummaryMarkdown b).id = b.id) ∧
    escapeMarkdownText "*bold*" = "\\*bold\\*" ∧
    (∀ input fetch r, searchBookmarks input fetch = .ok r →
      r.items = r.raw.items.map escapeBookmarkSummaryMarkdown) ∧
    searchBookmarks inputX fetchBold = .ok resultBold ∧
    resultBold.items.map BookmarkSummary.title = [some "\\*bold\\*"] ∧
    resultBold.raw.items.map BookmarkSummary.title = [some "*bold*"] := by
  refine ⟨escapeMarkdownText_charwise, ?_, ?_, ?_, rfl, ?_, rfl, rfl, rfl⟩
  · intro c hc
    simp [escapeMarkdownChar, hc]
  · intro c hc
    simp [escapeMarkdownChar, hc]
  · intro b
    refine ⟨rfl, rfl, rfl, rfl, rfl, rfl, rfl, rfl, rfl, rfl, rfl, rfl, rfl, rfl⟩
  · intro input fetch r hok
    rcases searchBookmarks_ok_inv input fetch r hok with ⟨page, _, rfl⟩
    rfl

/-- Witness for C2: the concrete escaping facts and the raw mirror of
the concrete response. -/
theorem escapeBookmarkSummaryMarkdown_spec_witness :
    escapeMarkdownChar '*' = ⟨['\\', '*']⟩ ∧
    resultBold.items = resultBold.raw.items.map escapeBookmarkSummaryMarkdown :=
  ⟨escapeBookmarkSummaryMarkdown_spec.2.1 '*' (by decide),
   escapeBookmarkSummaryMarkdown_spec.2.2.2.2.2.1 inputX fetchBold resultBold rfl⟩

/-- C3: supplying the pagination token as nextCursor or as cursor
yields the same upstream call, and each successful result echoes the
token back as cursor; supplying both nextCursor c1 and cursor c2 fails
the schema refinement. -/
theorem cursor_alias_equivalence :
    (∀ (q : String) (limit : Nat) (c : String),
      upstreamQueryOf { query := q, limit := limit, nextCursor := some c, cursor := none } =
        upstreamQueryOf { query := q, limit := limit, nextCursor := none, cursor := some c } ∧
      (∀ fetch r1,
        searchBookmarks { query := q, limit := limit, nextCursor := some c, cursor := none }
          fetch = .ok r1 → r1.cursor = some c) ∧
      (∀ fetch r2,
        searchBookmarks { query := q, limit := limit, nextCursor := none, cursor := some c }
          fetch = .ok r2 → r2.cursor = some c)) ∧
    searchInputRefine
      { query := "x", limit := 100, nextCursor := some "c1", cursor := some "c2" } = false := by
  refine ⟨?_, by decide⟩
  intro q limit c
  refine ⟨rfl, ?_, ?_⟩
  · intro fetch r1 hok
    rcases searchBookmarks_ok_inv _ fetch r1 hok with ⟨page, _, rfl⟩
    rfl
  · intro fetch r2 hok
    rcases searchBookmarks_ok_inv _ fetch r2 hok with ⟨page, _, rfl⟩
    rfl

/-- Witness for C3 at a concrete query, token and upstream page. -/
theorem cursor_alias_equivalence_witness :
    upstreamQueryOf { query := "x", limit := 100, nextCursor := some "tok", cursor := none } =
      upstreamQueryOf { query := "x", limit := 100, nextCursor := none, cursor := some "tok" } ∧
    (searchBookmarks { query := "x", limit := 100, nextCursor := some "tok", cursor := none }
        fetchBold).map SearchBookmarksResult.cursor = .ok (some "tok") := by
  have h := cursor_alias_equivalence.1 "x" 100 "tok"
  refine ⟨h.1, ?_⟩
  have hecho := h.2.1 fetchBold _ rfl
  rw [show (searchBookmarks { query := "x", limit := 100, nextCursor := some "tok", cursor := none }
        fetchBold) = .ok (shapeSearchPage
          { query := "x", limit := 100, nextCursor := some "tok", cursor := none } pageBold)
      from rfl]
  rw [Except.map]
  rw [hecho]

/-- C4: the submitted query whose trimmed form case-insensitively
equals the word bookmarks is sent upstream as the wildcard, every
other query is sent upstream trimmed but otherwise unmodified;
concretely, BookMarks with surrounding whitespace goes upstream as the
wildcard and a padded my-bookmarks-please query goes upstream merely
trimmed. -/
theorem query_rewrite_spec :
    (∀ input : SearchBookmarksInput,
      normalizedQueryOf input = jsToLower (jsTrim input.query) ∧
      (normalizedQueryOf input = "bookmarks" → (upstreamQueryOf input).q = "*") ∧
      (normalizedQueryOf input ≠ "bookmarks" →
        (upstreamQueryOf input).q = jsTrim input.query)) ∧
    (upstreamQueryOf inputPadBookmarks).q = "*" ∧
    (upstreamQueryOf inputPadPlease).q = "my bookmarks please" := by
  refine ⟨?_, by decide, by decide⟩
  intro input
  refine ⟨rfl, ?_, ?_⟩
  · intro h
    simp [upstreamQueryOf, effectiveQueryOf, h]
  · intro h
    simp only [upstreamQueryOf, effectiveQueryOf, if_neg h]
    rfl

/-- Witness for C4 at a mixed-case padded query. -/
theorem query_rewrite_spec_witness :
    (upstreamQueryOf inputPadBookmarks).q = "*" :=
  (query_rewrite_spec.1 inputPadBookmarks).2.1 (by decide)

/-- Counterexample to C5: an upstream search failure whose response and
error payload both carry status 503 is thrown by the façade as a
ServiceError with the hardcoded status 400 — not the upstream-supplied
503 and not the 500 default the claim predicts for that case. -/
theorem service_error_status_counterexample :
    svcBadResponse.status = some 503 ∧
    svcErrObj.status = some 503 ∧
    searchBookmarks inputX (fun _ => svcBadResponse) =
      .error { message := "Service Unavailable", status := 400,
               code := some "UPSTREAM_UNAVAILABLE", details := some (.errObj svcErrObj) } ∧
    (400 : Nat) ≠ 503 ∧ (400 : Nat) ≠ 500 := by
  exact ⟨rfl, rfl, rfl, by decide, by decide⟩

/-- C5 as amended: on a falsy upstream payload the façade throws a
ServiceError whose status is the hardcoded per-operation constant (400
for searchBookmarks, 404 for getBookmark), whose message and code come
from the extracted upstream error, and whose details are the raw
upstream error object when present and otherwise the whole response;
the ServiceError constructor itself defaults the status to 500 only
when no status option is supplied. -/
theorem service_error_hardcoded_status
    (input : SearchBookmarksInput) (fetch : UpstreamSearchQuery → ApiResponse SearchPage)
    (hnone : (fetch (upstreamQueryOf input)).data = none) :
    (∃ e, searchBookmarks input fetch = .error e ∧
      e.status = 400 ∧
      e.message = ((extractApiError (fetch (upstreamQueryOf input))).bind
        ApiErrorDetails.message).getD "Failed to search bookmarks" ∧
      e.code = (extractApiError (fetch (upstreamQueryOf input))).bind ApiErrorDetails.code ∧
      e.details = some (match (fetch (upstreamQueryOf input)).error with
                        | some raw => ErrPayload.errObj raw
                        | none => ErrPayload.searchRes (fetch (upstreamQueryOf input)))) ∧
    (∀ (bid : String) (bfetch : String → ApiResponse ApiBookmark),
      (bfetch bid).data = none → ∃ e, getBookmark bid bfetch = .error e ∧ e.status = 404) ∧
    (∀ (m : String) (c : Option String) (d : Option ErrPayload),
      (ServiceError.make m none c d).status = 500) := by
  refine ⟨?_, ?_, ?_⟩
  · have heq : searchBookmarks input fetch = .error (ServiceError.make
        (((extractApiError (fetch (upstreamQueryOf input))).bind
          ApiErrorDetails.message).getD "Failed to search bookmarks")
        (some 400)
        ((extractApiError (fetch (upstreamQueryOf input))).bind ApiErrorDetails.code)
        (some (match extractApiError (fetch (upstreamQueryOf input)) with
               | some d => ErrPayload.errObj d.raw
               | none => ErrPayload.searchRes (fetch (upstreamQueryOf input))))) := by
      unfold searchBookmarks searchBookmarksRes
      rw [hnone]
    refine ⟨_, heq, rfl, rfl, rfl, ?_⟩
    cases hre : (fetch (upstreamQueryOf input)).error with
    | none => simp [extractApiError, hre, ServiceError.make]
    | some raw => simp [extractApiError, hre, ServiceError.make]
  · intro bid bfetch hb
    have heq : getBookmark bid bfetch = .error (ServiceError.make
        (((extractApiError (bfetch bid)).bind
          ApiErrorDetails.message).getD "Failed to load bookmark")
        (some 404)
        ((extractApiError (bfetch bid)).bind ApiErrorDetails.code)
        (some (match extractApiError (bfetch bid) with
               | some d => ErrPayload.errObj d.raw
               | none => ErrPayload.bookmarkRes (bfetch bid)))) := by
      unfold getBookmark getBookmarkRes
      rw [hb]
    exact ⟨_, heq, rfl⟩
  · intro m c d
    rfl

/-- Witness for the amended C5 at the concrete failed response. -/
theorem service_error_hardcoded_status_witness :
    ∃ e, searchBookmarks inputX (fun _ => svcBadResponse) = .error e ∧ e.status = 400 := by
  obtain ⟨⟨e, he, hs, _, _, _⟩, _, _⟩ :=
    service_error_hardcoded_status inputX (fun _ => svcBadResponse) rfl
  exact ⟨e, he, hs⟩

/-- C6: every successful searchBookmarks result satisfies the
invariants hasMore iff nextCursor is non-null, and no two items share
an id. -/
theorem searchResult_invariants
    (input : SearchBookmarksInput) (fetch : UpstreamSearchQuery → ApiResponse SearchPage)
    (r : SearchBookmarksResult) (hok : searchBookmarks input fetch = .ok r) :
    (r.hasMore = true ↔ r.nextCursor ≠ none) ∧
    (r.items.map BookmarkSummary.id).Nodup ∧
    List.Pairwise (fun a b => a.id ≠ b.id) r.items := by
  rcases searchBookmarks_ok_inv input fetch r hok with ⟨page, _, rfl⟩
  have hids : ((shapeSearchPage input page).items.map BookmarkSummary.id).Nodup := by
    show (((dedupeSummaries (page.bookmarks.map toBookmarkSummary) []).map
      escapeBookmarkSummaryMarkdown).map BookmarkSummary.id).Nodup
    rw [List.map_map]
    have hcomp : (BookmarkSummary.id ∘ escapeBookmarkSummaryMarkdown) = BookmarkSummary.id := by
      funext b
      rfl
    rw [hcomp]
    exact dedupeSummaries_ids_nodup _ _
  refine ⟨?_, hids, ?_⟩
  · show page.nextCursor.isSome = true ↔ page.nextCursor ≠ none
    cases page.nextCursor <;> simp
  · exact List.pairwise_map.mp hids

/-- Witness for C6 at the concrete duplicated page. -/
theorem searchResult_invariants_witness :
    (resultDup.hasMore = true ↔ resultDup.nextCursor ≠ none) ∧
    (resultDup.items.map BookmarkSummary.id).Nodup ∧
    List.Pairwise (fun a b => a.id ≠ b.id) resultDup.items :=
  searchResult_invariants inputX fetchDup resultDup rfl

/-- C10: the two-cursor mutual-exclusion check tests truthiness, not
presence: a nonempty nextCursor together with an empty-string cursor
(and vice versa) passes the refinement, while two nonempty tokens fail
it; and an empty-string cursor with nextCursor absent makes the
effective cursor the empty string rather than null, reaching the
upstream call. -/
theorem cursor_truthiness_validation :
    searchInputRefine inputNextFullCursorEmpty = true ∧
    searchInputRefine inputNextEmptyCursorFull = true ∧
    searchInputRefine inputBothCursors = false ∧
    effectiveCursorOf inputEmptyCursorOnly = some "" ∧
    (upstreamQueryOf inputEmptyCursorOnly).cursor = some "" ∧
    (some "" : Option String) ≠ none := by
  decide

/-- C7: normalizeError is a total function over the modelled universe
of thrown values and always produces the stable shape of a string
message with only the optional code, status and details fields: falsy
inputs (null, undefined, the empty string, zero, false) get the
generic message; a ServiceError keeps its message, code, status and
details; another native Error keeps only its message; a plain object
is probed for string message and code fields and carried as details;
remaining primitives are stringified. -/
theorem normalizeError_total_shape :
    (normalizeError .nullish =
      { message := "Something went wrong", code := none, status := none, details := none }) ∧
    (∀ s : String, s ≠ "" → normalizeError (.str s) =
      { message := s, code := none, status := none, details := none }) ∧
    (normalizeError (.str "") =
      { message := "Something went wrong", code := none, status := none, details := none }) ∧
    (∀ m : String, normalizeError (.nativeErr m) =
      { message := m, code := none, status := none, details := none }) ∧
    (∀ e : ServiceError, normalizeError (.serviceErr e) =
      { message := e.message, code := e.code, status := some e.status,
        details := e.details.map NormDetails.fromService }) ∧
    (∀ o : JsObj, normalizeError (.obj o) =
      { message := match o.message with | .strVal s => s | _ => "Something went wrong"
        code := match o.code with | .strVal s => some s | _ => none
        status := none
        details := some (.fromObject o) }) ∧
    (∀ n : Int, n ≠ 0 → normalizeError (.num n) =
      { message := toString n, code := none, status := none, details := none }) ∧
    (normalizeError (.num 0) =
      { message := "Something went wrong", code := none, status := none, details := none }) ∧
    (∀ b : Bool, normalizeError (.boolean b) =
      { message := if b then "true" else "Something went wrong",
        code := none, status := none, details := none }) := by
  refine ⟨rfl, ?_, rfl, ?_, ?_, ?_, ?_, rfl, ?_⟩
  · intro s hs
    simp [normalizeError, jsFalsy, jsStringOf, hs]
  · intro m
    rfl
  · intro e
    rfl
  · intro o
    rfl
  · intro n hn
    simp [normalizeError, jsFalsy, jsStringOf, hn]
  · intro b
    cases b <;> rfl

/-- Witness for C7 at a concrete nonempty string input. -/
theorem normalizeError_total_shape_witness :
    normalizeError (.str "boom") =
      { message := "boom", code := none, status := none, details := none } :=
  normalizeError_total_shape.2.1 "boom" (by decide)

/-- C8: a rendered summary within the 400-character cap is unchanged;
one over the cap is rendered as at most 400 visible characters with no
trailing whitespace followed by the ellipsis; notes behave the same
with a 200-character cap; and formatBookmarkLine renders summaries and
notes through exactly these caps. -/
theorem truncation_spec :
    (∀ s : String, s.length ≤ 400 → truncateText s 400 = s) ∧
    (∀ s : String, 400 < s.length →
      ∃ v, truncateText s 400 = v ++ "…" ∧ v.length ≤ 400 ∧
        (∀ c, v.data.getLast? = some c → isJsWhitespace c = false)) ∧
    (∀ s : String, s.length ≤ 200 → truncateText s 200 = s) ∧
    (∀ s : String, 200 < s.length →
      ∃ v, truncateText s 200 = v ++ "…" ∧ v.length ≤ 200 ∧
        (∀ c, v.data.getLast? = some c → isJsWhitespace c = false)) ∧
    (∀ (b : BookmarkSummary) (i : Nat) (s : String),
      b.summary = some s → truthyStr (jsTrim s) = true →
      ("   Summary: " ++ truncateText (jsTrim s) 400) ∈ formatBookmarkLineParts b i) ∧
    (∀ (b : BookmarkSummary) (i : Nat) (s : String),
      b.note = some s → truthyStr (jsTrim s) = true →
      ("   Note: " ++ truncateText (jsTrim s) 200) ∈ formatBookmarkLineParts b i) := by
  have htrunc : ∀ (s : String) (m : Nat), m < s.length →
      ∃ v, truncateText s m = v ++ "…" ∧ v.length ≤ m ∧
        (∀ c, v.data.getLast? = some c → isJsWhitespace c = false) := by
    intro s m hm
    refine ⟨jsTrimEnd (jsSlice s (m - 1)), ?_, ?_, ?_⟩
    · unfold truncateText
      rw [if_neg (by omega)]
    · show (((jsSlice s (m - 1)).data.reverse.dropWhile isJsWhitespace).reverse).length ≤ m
      rw [List.length_reverse]
      calc ((jsSlice s (m - 1)).data.reverse.dropWhile isJsWhitespace).length
          ≤ (jsSlice s (m - 1)).data.reverse.length := length_dropWhile_le _ _
        _ = (s.data.take (m - 1)).length := by rw [List.length_reverse]; rfl
        _ ≤ m - 1 := List.length_take_le _ _
        _ ≤ m := Nat.sub_le _ _
    · intro c hc
      rw [show (jsTrimEnd (jsSlice s (m - 1))).data =
          ((jsSlice s (m - 1)).data.reverse.dropWhile isJsWhitespace).reverse from rfl,
        List.getLast?_reverse] at hc
      exact head?_dropWhile_not isJsWhitespace _ c hc
  have hle : ∀ (s : String) (m : Nat), s.length ≤ m → truncateText s m = s := by
    intro s m hm
    unfold truncateText
    rw [if_pos hm]
  refine ⟨fun s h => hle s 400 h, fun s h => htrunc s 400 h,
    fun s h => hle s 200 h, fun s h => htrunc s 200 h, ?_, ?_⟩
  · intro b i s hsum htr
    simp only [formatBookmarkLineParts]
    refine List.mem_append.mpr (Or.inl ?_)
    refine List.mem_append.mpr (Or.inl ?_)
    refine List.mem_append.mpr (Or.inl ?_)
    refine List.mem_append.mpr (Or.inr ?_)
    rw [hsum]
    simp [htr]
  · intro b i s hnote htr
    simp only [formatBookmarkLineParts]
    refine List.mem_append.mpr (Or.inl ?_)
    refine List.mem_append.mpr (Or.inl ?_)
    refine List.mem_append.mpr (Or.inr ?_)
    rw [hnote]
    simp [htr]

set_option maxRecDepth 8192 in
/-- Witness for C8 at a concrete 500-character summary and a short
value. -/
theorem truncation_spec_witness :
    truncateText "short" 400 = "short" ∧
    (∃ v, truncateText longSummary 400 = v ++ "…" ∧ v.length ≤ 400 ∧
      (∀ c, v.data.getLast? = some c → isJsWhitespace c = false)) :=
  ⟨truncation_spec.1 "short" (by decide),
   truncation_spec.2.1 longSummary (by decide)⟩

set_option maxRecDepth 8192 in
/-- C9: the human-readable text of every successful searchBookmarks
result is rendered from the raw (unescaped) summaries while the
structured items carry the escaped mirror; concretely, a title
containing markdown-significant stars appears in the text unescaped
(the text contains stars and no backslash at all) while the items
field of the same result holds the backslash-escaped title. -/
theorem text_uses_raw_summaries :
    (∀ input fetch r, searchBookmarks input fetch = .ok r →
      r.text = formatBookmarkSearchResult r.raw.items r.nextCursor
        (some (effectiveQueryOf input)) ∧
      r.items = r.raw.items.map escapeBookmarkSummaryMarkdown) ∧
    searchBookmarks inputX fetchBold = .ok resultBold ∧
    resultBold.text =
      "Karakeep search-bookmarks tool response (not a user message):\n- Found 1 bookmark.\n- Query: \"x\".\n- Next cursor: no more pages.\n\n1. *bold* (2024-01-02)" ∧
    resultBold.text.data.contains '*' = true ∧
    resultBold.text.data.contains '\\' = false ∧
    resultBold.items.map BookmarkSummary.title = [some "\\*bold\\*"] ∧
    resultBold.raw.items.map BookmarkSummary.title = [some "*bold*"] := by
  refine ⟨?_, rfl, by decide, by decide, by decide, rfl, rfl⟩
  intro input fetch r hok
  rcases searchBookmarks_ok_inv input fetch r hok with ⟨page, _, rfl⟩
  exact ⟨rfl, rfl⟩

/-- Witness for C9 at the concrete markdown-title page. -/
theorem text_uses_raw_summaries_witness :
    resultBold.text = formatBookmarkSearchResult resultBold.raw.items
      resultBold.nextCursor (some (effectiveQueryOf inputX)) :=
  (text_uses_raw_summaries.1 inputX fetchBold resultBold rfl).1

end Karakeep
